import Mathlib

/-!
Verification of the MAD Apartments voice-agent relay.

Shallow embedding of the session relay (`src/f/main.py`, with the legacy
variant `src/main.py`), the capability routing layer (`src/functions.py`)
and the complaint business logic (`src/business_logic.py`).

Conventions of the embedding:
  * bytes are `Nat`; an audio frame is a `List Nat`;
  * Python dict/JSON values are the inductive `Json`; a Python dict keeps
    insertion order, so objects are association lists;
  * `async` functions that only transform data are plain functions; a task's
    interaction with a websocket or queue is modelled as a function from the
    list of messages it reads to the list of items it emits, in order;
  * a Python exception raised by a capability is `Except.error` with the
    exception text; ambient process state (the in-memory complaint store, the
    clock, the uuid generator) is passed explicitly.
-/

namespace MadHotline

/-! ## Audio framing constants (src/f/main.py lines 33-35) -/

def SAMPLE_RATE : Nat := 8000

def CHUNK_MS : Nat := 20

/-- `BYTES_PER_CHUNK = int(SAMPLE_RATE * CHUNK_MS / 1000)` — 160 bytes. -/
def BYTES_PER_CHUNK : Nat := SAMPLE_RATE * CHUNK_MS / 1000

abbrev Byte := Nat

abbrev Frame := List Byte

/-! ## Frame chunker (src/f/main.py lines 57-66)

`while len(buf) >= BYTES_PER_CHUNK: emit bytes(buf[:N]); buf = buf[N:]`.
The source runs the loop with the constant `BYTES_PER_CHUNK = 160 > 0`; the
`0 < N` conjunct in the guard makes the Lean recursion total at that chunk
size without changing its behaviour there. -/

def drainFrames (N : Nat) (buf : List Byte) : List Frame × List Byte :=
  if h : 0 < N ∧ N ≤ buf.length then
    have : (buf.drop N).length < buf.length := by
      rw [List.length_drop]; omega
    let p := drainFrames N (buf.drop N)
    (buf.take N :: p.1, p.2)
  else
    ([], buf)
termination_by buf.length

/-- One `media` event: append the decoded payload to the residual buffer, then
drain complete frames (src/f/main.py lines 62-66). -/
def chunkStepFold (acc : List Frame × List Byte) (payload : List Byte) :
    List Frame × List Byte :=
  let d := drainFrames BYTES_PER_CHUNK (acc.2 ++ payload)
  (acc.1 ++ d.1, d.2)

/-- The frame chunker over a whole sequence of inbound media payloads,
starting from the empty buffer (`buf = bytearray()`). Returns (emitted
frames in order, final residual buffer). -/
def twilioChunker (payloads : List (List Byte)) : List Frame × List Byte :=
  payloads.foldl chunkStepFold ([], [])

theorem drainFrames_frames_length (N : Nat) (buf : List Byte) :
    ∀ f ∈ (drainFrames N buf).1, f.length = N := by
  rw [drainFrames]
  by_cases h : 0 < N ∧ N ≤ buf.length
  · rw [dif_pos h]
    intro f hf
    rcases List.mem_cons.mp hf with rfl | hmem
    · exact List.length_take_of_le h.2
    · exact drainFrames_frames_length N (buf.drop N) f hmem
  · rw [dif_neg h]
    intro f hf
    simp at hf
termination_by buf.length
decreasing_by rw [List.length_drop]; omega

theorem drainFrames_flatten (N : Nat) (buf : List Byte) :
    ((drainFrames N buf).1).flatten ++ (drainFrames N buf).2 = buf := by
  rw [drainFrames]
  by_cases h : 0 < N ∧ N ≤ buf.length
  · rw [dif_pos h]
    have ih := drainFrames_flatten N (buf.drop N)
    simp [List.append_assoc, ih]
  · rw [dif_neg h]
    simp
termination_by buf.length
decreasing_by rw [List.length_drop]; omega

theorem drainFrames_residual_lt (N : Nat) (buf : List Byte) (hN : 0 < N) :
    ((drainFrames N buf).2).length < N := by
  rw [drainFrames]
  by_cases h : 0 < N ∧ N ≤ buf.length
  · rw [dif_pos h]
    exact drainFrames_residual_lt N (buf.drop N) hN
  · rw [dif_neg h]
    simp only []
    omega
termination_by buf.length
decreasing_by rw [List.length_drop]; omega

theorem chunker_fold_frames_length (payloads : List (List Byte))
    (acc : List Frame × List Byte)
    (hacc : ∀ f ∈ acc.1, f.length = BYTES_PER_CHUNK) :
    ∀ f ∈ (payloads.foldl chunkStepFold acc).1, f.length = BYTES_PER_CHUNK := by
  induction payloads generalizing acc with
  | nil => simpa using hacc
  | cons p ps ih =>
      rw [List.foldl_cons]
      refine ih _ ?_
      intro f hf
      rcases List.mem_append.mp hf with hfa | hfd
      · exact hacc f hfa
      · exact drainFrames_frames_length BYTES_PER_CHUNK (acc.2 ++ p) f hfd

theorem chunker_fold_flatten (payloads : List (List Byte))
    (acc : List Frame × List Byte) :
    ((payloads.foldl chunkStepFold acc).1).flatten ++
        (payloads.foldl chunkStepFold acc).2 =
      acc.1.flatten ++ acc.2 ++ payloads.flatten := by
  induction payloads generalizing acc with
  | nil => simp
  | cons p ps ih =>
      rw [List.foldl_cons, ih]
      have hd := drainFrames_flatten BYTES_PER_CHUNK (acc.2 ++ p)
      simp only [chunkStepFold, List.flatten_append, List.flatten_cons,
        List.append_assoc]
      rw [← List.append_assoc
        ((drainFrames BYTES_PER_CHUNK (acc.2 ++ p)).1.flatten), hd]
      simp [List.append_assoc]

theorem chunker_fold_residual_lt (payloads : List (List Byte))
    (acc : List Frame × List Byte)
    (hacc : acc.2.length < BYTES_PER_CHUNK) :
    ((payloads.foldl chunkStepFold acc).2).length < BYTES_PER_CHUNK := by
  induction payloads generalizing acc with
  | nil => simpa using hacc
  | cons p ps ih =>
      rw [List.foldl_cons]
      exact ih _ (drainFrames_residual_lt _ _ (by decide))

/-- C1: the frame chunker emits only frames of exactly
`BYTES_PER_CHUNK = SAMPLE_RATE * CHUNK_MS / 1000` bytes; the concatenation of
all emitted frames followed by the final residual buffer equals the
concatenation of all decoded input payloads; the residual buffer is always
strictly shorter than a frame; no short frame is ever emitted. -/
theorem C1_frame_chunker_correct (payloads : List (List Byte)) :
    BYTES_PER_CHUNK = SAMPLE_RATE * CHUNK_MS / 1000
    ∧ (∀ f ∈ (twilioChunker payloads).1, f.length = BYTES_PER_CHUNK)
    ∧ ((twilioChunker payloads).1).flatten ++ (twilioChunker payloads).2 =
        payloads.flatten
    ∧ ((twilioChunker payloads).2).length < BYTES_PER_CHUNK := by
  refine ⟨rfl, ?_, ?_, ?_⟩
  · exact chunker_fold_frames_length payloads ([], []) (by simp)
  · simpa using chunker_fold_flatten payloads ([], [])
  · exact chunker_fold_residual_lt payloads ([], []) (by decide)

/-! ## Agent egress task `sts_sender` (src/f/main.py lines 83-93)

`while True: chunk = await audio_queue.get(); if chunk is None: await
ws_dg.close(); break; await ws_dg.send(chunk)`. -/

/-- One audio-queue item: `some frame` for an audio chunk, `none` for the
end-of-stream sentinel enqueued by the ingest task. -/
abbrev QueueItem := Option Frame

/-- `sts_sender`, as a function of the sequence of items it will dequeue in
order: (chunks sent to the agent connection in order, number of times the
agent connection is closed). On an exhausted list the task is still blocked in
`audio_queue.get()`, having sent every item so far and closed nothing. -/
def stsSenderRun : List QueueItem → List Frame × Nat
  | [] => ([], 0)
  | none :: _ => ([], 1)
  | some c :: rest =>
      let p := stsSenderRun rest
      (c :: p.1, p.2)

theorem stsSenderRun_map_some_append (frames : List Frame)
    (q : List QueueItem) :
    stsSenderRun (frames.map some ++ q) =
      (frames ++ (stsSenderRun q).1, (stsSenderRun q).2) := by
  induction frames with
  | nil => simp
  | cons f fs ih => simp [stsSenderRun, ih]

/-- C2: the agent egress task forwards to the agent connection exactly the
frames enqueued on the audio queue, bytes unmodified, in enqueue order, none
dropped and none duplicated — both while the queue is still open and once the
sentinel ends it. -/
theorem C2_sts_sender_exact_fifo (frames : List Frame)
    (later : List QueueItem) :
    (stsSenderRun (frames.map some ++ none :: later)).1 = frames
    ∧ (stsSenderRun (frames.map some)).1 = frames := by
  constructor
  · rw [stsSenderRun_map_some_append]
    simp [stsSenderRun]
  · have h := stsSenderRun_map_some_append frames []
    simpa [stsSenderRun] using congrArg Prod.fst h

/-- C3: once the sentinel is enqueued, the egress task first forwards every
item enqueued before it, then closes the agent connection exactly once and
terminates, forwarding nothing enqueued after the sentinel. -/
theorem C3_sts_sender_sentinel_close (frames : List Frame)
    (later : List QueueItem) :
    stsSenderRun (frames.map some ++ none :: later) = (frames, 1) := by
  rw [stsSenderRun_map_some_append]
  simp [stsSenderRun]

/-! ## JSON values

Python dict/JSON values as passed between the dispatcher, the capability
router and the business logic. Python dicts keep insertion order, so an
object is an association list in source order. -/

inductive Json where
  | null : Json
  | bool (b : Bool) : Json
  | num (n : Int) : Json
  | str (s : String) : Json
  | arr (xs : List Json) : Json
  | obj (fields : List (String × Json)) : Json

/-- Field lookup on a JSON object (`d["k"]` / `d.get("k")` on a dict):
`none` when the value is not an object or lacks the key. -/
def Json.getField : Json → String → Option Json
  | .obj fields, k => fields.lookup k
  | _, _ => none

/-! ## Complaint business logic (src/business_logic.py)

In-memory stores and category tables. A tenant is
(unit, name, phone, email); a category config entry is
(key, label, sla_hours, responsible_team, priority_rank), in the source
dict's insertion order. -/

def TENANTS : List (String × String × String × String) := [
  ("101", "Priya Sharma", "+447700900001", "priya@example.com"),
  ("202", "James O'Brien", "+447700900002", "james@example.com"),
  ("305", "Aisha Patel", "+447700900003", "aisha@example.com"),
  ("410", "Carlos Mendez", "+447700900004", "carlos@example.com")]

def COMPLAINT_CONFIG : List (String × String × Nat × String × Nat) := [
  ("gas_leak", "Gas Leak", 1, "Emergency Response", 1),
  ("fire", "Fire / Smoke", 1, "Emergency Response", 1),
  ("flood", "Flooding / Burst Pipe", 2, "Emergency Response", 1),
  ("structural_damage", "Structural Damage", 2, "Emergency Response", 1),
  ("no_heat_winter", "No Heating (Winter)", 4, "Emergency Maintenance", 2),
  ("power_outage", "Power Outage", 4, "Emergency Maintenance", 2),
  ("security_breach", "Security / Break-in", 2, "Security Team", 1),
  ("medical_emergency", "Medical Emergency", 0, "Emergency Services (999)", 1),
  ("plumbing", "Plumbing Issue", 24, "Maintenance Team", 3),
  ("electrical", "Electrical Issue", 24, "Maintenance Team", 3),
  ("hvac", "Heating / AC Issue", 24, "Maintenance Team", 3),
  ("appliance", "Appliance Fault", 48, "Maintenance Team", 4),
  ("pest", "Pest Infestation", 48, "Pest Control Team", 4),
  ("noise_complaint", "Noise Complaint", 24, "Property Management", 3),
  ("neighbour_dispute", "Neighbour Dispute", 48, "Property Management", 4),
  ("parking", "Parking Issue", 48, "Property Management", 4),
  ("common_area", "Common Area Issue", 48, "Facilities Team", 4),
  ("lift", "Lift / Elevator Issue", 12, "Maintenance Team", 3),
  ("entry_system", "Entry System / Keys", 12, "Maintenance Team", 3),
  ("rubbish", "Waste / Rubbish", 72, "Facilities Team", 5),
  ("leaking", "Leak (non-urgent)", 24, "Maintenance Team", 3),
  ("damp_mould", "Damp / Mould", 72, "Maintenance Team", 4),
  ("other", "General Complaint", 48, "Property Management", 4)]

def EMERGENCY_CATEGORIES : List String := [
  "gas_leak", "fire", "flood", "structural_damage", "no_heat_winter", "power_outage", "security_breach", "medical_emergency"]

def ASSURANCE_SCRIPTS : List (String × String) := [
  ("gas_leak",
   "This is a critical emergency. Our emergency response team has been alerted right now " ++
   "and will be at your property within one hour. Please leave your flat immediately, do " ++
   "not touch any light switches or electrical devices, and wait outside. We will call you " ++
   "back within 15 minutes to confirm someone is on their way."),
  ("fire",
   "I've flagged this as a life-safety emergency. Please evacuate the building now and call " ++
   "999 if you haven't already. Our emergency team is being dispatched and will coordinate " ++
   "with the fire service. You will receive a call back within 15 minutes."),
  ("flood",
   "A burst pipe or flooding is a critical emergency. Our emergency plumber has been paged " ++
   "and will arrive within two hours. If it's safe to do so, please turn off the water " ++
   "stopcock — it's usually under the kitchen sink. Move valuables away from the water if " ++
   "possible. We'll call you within 30 minutes to confirm the engineer's ETA."),
  ("structural_damage",
   "Structural damage is being treated as an emergency. A qualified surveyor will inspect " ++
   "your property within two hours. Please avoid the affected area for your safety. We'll " ++
   "call you within 30 minutes with an update."),
  ("no_heat_winter",
   "No heating in winter is classified as urgent under housing law. An emergency heating " ++
   "engineer has been assigned and will contact you within four hours. If you have " ++
   "vulnerable individuals — children, elderly, or anyone with a medical condition — please " ++
   "let me note that now so we can escalate the priority further."),
  ("power_outage",
   "We've raised this as an urgent electrical fault. Our team will assess within four " ++
   "hours. Please avoid using candles for safety. If the outage affects the entire " ++
   "building, we're already contacting the utility provider. You'll receive a text update " ++
   "within the hour."),
  ("security_breach",
   "Your safety is the top priority. Our security team has been alerted and will respond " ++
   "within two hours. If you feel you are in immediate danger, please call 999 right now. " ++
   "We will also review CCTV footage and arrange a security review of your entry points."),
  ("medical_emergency",
   "Please call 999 immediately — this requires the ambulance service directly. I'm logging " ++
   "this on your account so our property manager is made aware and can provide any " ++
   "assistance needed. Please stay on the line with the emergency services."),
  ("plumbing",
   "Your plumbing complaint has been logged and assigned to our maintenance team. A " ++
   "qualified plumber will contact you within 24 hours to arrange a convenient time to " ++
   "visit. You'll also receive a confirmation text shortly. If the issue gets worse or " ++
   "causes flooding, please call us back immediately."),
  ("electrical",
   "Your electrical complaint has been raised with our maintenance team and will be " ++
   "assessed within 24 hours. An electrician will contact you to arrange access. In the " ++
   "meantime, please avoid using any faulty sockets or switches. If you notice sparking or " ++
   "smell burning, please call us back straight away."),
  ("hvac",
   "Your heating or air conditioning issue has been logged. Our HVAC team will be in touch " ++
   "within 24 hours to arrange a visit. If this becomes urgent — particularly in cold " ++
   "weather — call back and we'll escalate it immediately."),
  ("appliance",
   "Your appliance fault has been recorded and passed to our maintenance team. They will " ++
   "contact you within 48 hours to assess and repair or replace it. If it's a " ++
   "landlord-provided appliance, all costs will be covered by us."),
  ("pest",
   "A pest report has been raised and passed to our specialist pest control team. They will " ++
   "contact you within 48 hours to arrange an inspection and treatment. Please try not to " ++
   "disturb any nesting areas in the meantime."),
  ("noise_complaint",
   "Your noise complaint has been formally logged. Our property management team will " ++
   "investigate and contact the relevant party within 24 hours. If the noise is causing " ++
   "serious distress tonight, you can also contact your local council's noise service. " ++
   "We'll send you a written update within two working days."),
  ("neighbour_dispute",
   "Your concern has been noted and will be reviewed by our property manager. We take " ++
   "disputes seriously and aim to mediate fairly for all residents. A member of the team " ++
   "will contact you within 48 hours to discuss next steps."),
  ("parking",
   "Your parking complaint has been logged. Our facilities team will review the situation " ++
   "within 48 hours. If there is a vehicle blocking emergency access, please let me know " ++
   "now and we can escalate that as a priority."),
  ("common_area",
   "Your report about the common area has been sent to our facilities team, who aim to " ++
   "address communal issues within 48 hours. If it is a safety hazard, please say so now " ++
   "and we'll treat it as a priority."),
  ("lift",
   "The lift issue has been raised with our maintenance team as a priority fault. An " ++
   "engineer will be assigned within 12 hours. If you have accessibility needs and the lift " ++
   "is your only route of access, please tell me now and we'll arrange a priority visit " ++
   "today."),
  ("entry_system",
   "Your entry system or key issue has been logged. Our maintenance team will respond " ++
   "within 12 hours. If you are currently locked out, please stay on the line and I'll " ++
   "connect you with our out-of-hours locksmith service right now."),
  ("rubbish",
   "Your waste and rubbish complaint has been passed to our facilities team and will be " ++
   "addressed within 72 hours. Thank you for flagging this — keeping communal areas clean " ++
   "is important for everyone in the building."),
  ("leaking",
   "The non-urgent leak has been logged and our plumbing team will contact you within 24 " ++
   "hours to arrange an inspection. If the leak worsens, please call back immediately so we " ++
   "can upgrade the priority."),
  ("damp_mould",
   "Damp and mould is a health concern we take very seriously. Your complaint has been " ++
   "logged and our maintenance team will carry out a full assessment within 72 hours. We " ++
   "will recommend the appropriate treatment and ensure this is resolved properly."),
  ("other",
   "Your complaint has been logged and a reference number has been created. Our property " ++
   "management team will review it within 48 hours and contact you with an update. If you " ++
   "feel this needs urgent attention, please let me know now.")]

/-- Python `str.lower()`, written structurally over the character list so that
concrete runs evaluate inside proofs. -/
def pyLower (s : String) : String := ⟨s.data.map Char.toLower⟩

/-- Python `str.upper()`. -/
def pyUpper (s : String) : String := ⟨s.data.map Char.toUpper⟩

/-- Python `str.strip()`: drop whitespace from both ends. -/
def pyStrip (s : String) : String :=
  ⟨((s.data.dropWhile Char.isWhitespace).reverse.dropWhile
      Char.isWhitespace).reverse⟩

/-- `_sla_to_words` (src/business_logic.py lines 354-362). -/
def sla_to_words (hours : Nat) : String :=
  if hours = 0 then "immediate – call 999 now"
  else if hours = 1 then "within 1 hour"
  else if hours < 24 then "within " ++ toString hours ++ " hours"
  else
    let days := hours / 24
    "within " ++ toString days ++ " working day" ++
      (if days > 1 then "s" else "")

/-- `_build_response_plan` (src/business_logic.py lines 365-393). -/
def build_response_plan (category label team : String) (sla_hours : Nat)
    (is_emergency : Bool) : String :=
  if category = "medical_emergency" then
    "Step 1 – Call 999 immediately for the ambulance service.\n" ++
    "Step 2 – Your property manager has been notified and will follow up.\n" ++
    "Step 3 – A welfare check will be arranged if needed."
  else if is_emergency then
    "Step 1 – Your complaint has been flagged as an EMERGENCY with our " ++
      team ++ ".\n" ++
    "Step 2 – A specialist will be dispatched " ++ sla_to_words sla_hours ++
      ".\n" ++
    "Step 3 – You will receive a call-back within 15–30 minutes to confirm " ++
      "the engineer's ETA.\n" ++
    "Step 4 – Once the immediate risk is made safe, a follow-up inspection " ++
      "will be scheduled.\n" ++
    "Step 5 – A written incident report will be sent to you within 24 hours " ++
      "of resolution."
  else
    "Step 1 – Your " ++ label ++
      " complaint has been logged and assigned to the " ++ team ++ ".\n" ++
    "Step 2 – A team member will contact you " ++ sla_to_words sla_hours ++
      " to arrange access or discuss next steps.\n" ++
    "Step 3 – All repair work will be carried out by a qualified contractor " ++
      "at no cost to you.\n" ++
    "Step 4 – You will receive SMS and email updates as the ticket " ++
      "progresses.\n" ++
    "Step 5 – Once the work is complete, we will ask you to confirm the " ++
      "issue is resolved before closing the ticket."

/-- The record `file_complaint` stores in `COMPLAINTS`
(src/business_logic.py lines 239-256). `created_at` and `deadline` are the
source's `datetime.utcnow()` values, modelled in whole hours since an
arbitrary epoch. -/
structure ComplaintRecord where
  ticket_id : String
  unit_number : String
  tenant_name : String
  contact_number : Option String
  category : String
  label : String
  description : String
  is_emergency : Bool
  priority : Nat
  team : String
  sla_hours : Nat
  status : String
  created_at : Nat
  deadline : Nat
  response_plan : String

/-- The in-memory `COMPLAINTS` dict: ticket id → record, insertion order. -/
abbrev ComplaintStore := List (String × ComplaintRecord)

/-- `ComplaintSystem.verify_tenant` (src/business_logic.py lines 195-212). -/
def ComplaintSystem.verify_tenant (unit_number : String) : Json :=
  match TENANTS.lookup (pyStrip unit_number) with
  | some t =>
      Json.obj [("verified", .bool true),
        ("unit_number", .str unit_number),
        ("tenant_name", .str t.1)]
  | none =>
      Json.obj [("verified", .bool false),
        ("message", .str ("I couldn't find unit " ++ unit_number ++
          " in our system. Could you double-check that number? " ++
          "If you've recently moved in, I can still take your complaint " ++
          "and we'll verify your details afterwards."))]

/-- `ComplaintSystem.file_complaint` (src/business_logic.py lines 214-270).
Ambient effects are explicit: `uuid8` is `str(uuid.uuid4())[:8]` and `now` is
`datetime.utcnow()` in whole hours. Returns the result dict together with the
record inserted into `COMPLAINTS`. -/
def ComplaintSystem.file_complaint (uuid8 : String) (now : Nat)
    (unit_number category description tenant_name : String)
    (contact_number : Option String) : Json × ComplaintRecord :=
  let category0 := pyStrip (pyLower category)
  let category :=
    if (COMPLAINT_CONFIG.lookup category0).isSome then category0 else "other"
  -- `COMPLAINT_CONFIG[category]`; the fallback arm is unreachable since
  -- "other" is in the table.
  let cfg := (COMPLAINT_CONFIG.lookup category).getD
    ("General Complaint", 48, "Property Management", 4)
  let label := cfg.1
  let sla_hours := cfg.2.1
  let team := cfg.2.2.1
  let priority := cfg.2.2.2
  let is_emergency := EMERGENCY_CATEGORIES.contains category
  let ticket_id := "MAD-" ++ pyUpper uuid8
  let deadline := if sla_hours > 0 then now + sla_hours else now
  let response_plan :=
    build_response_plan category label team sla_hours is_emergency
  let record : ComplaintRecord := {
    ticket_id := ticket_id
    unit_number := unit_number
    tenant_name := tenant_name
    contact_number := contact_number
    category := category
    label := label
    description := description
    is_emergency := is_emergency
    priority := priority
    team := team
    sla_hours := sla_hours
    status := "open"
    created_at := now
    deadline := deadline
    response_plan := response_plan }
  -- `ASSURANCE_SCRIPTS.get(category, ASSURANCE_SCRIPTS["other"])`; the inner
  -- default is unreachable since "other" is in the table.
  let assurance := match ASSURANCE_SCRIPTS.lookup category with
    | some s => s
    | none => (ASSURANCE_SCRIPTS.lookup "other").getD ""
  (Json.obj [
    ("success", .bool true),
    ("ticket_id", .str ticket_id),
    ("is_emergency", .bool is_emergency),
    ("label", .str label),
    ("team", .str team),
    ("sla_hours", .num sla_hours),
    ("sla_description", .str (sla_to_words sla_hours)),
    ("response_plan", .str response_plan),
    ("assurance_message", .str assurance)], record)

/-- `ComplaintSystem.check_complaint_status`
(src/business_logic.py lines 272-301), over an explicit store and clock. -/
def ComplaintSystem.check_complaint_status (store : ComplaintStore)
    (now : Nat) (ticket_id : String) : Json :=
  match store.lookup (pyUpper (pyStrip ticket_id)) with
  | none =>
      Json.obj [("found", .bool false),
        ("message", .str ("I couldn't find ticket " ++ ticket_id ++
          ". The reference starts with MAD- followed by eight characters. " ++
          "Would you like to check whether you have the right number?"))]
  | some t =>
      -- `max(0.0, (deadline - now).total_seconds() / 3600)`, exact in whole
      -- hours on `Nat` (truncated subtraction is the `max 0`).
      let hours_remaining := t.deadline - now
      Json.obj [("found", .bool true),
        ("ticket_id", .str ticket_id),
        ("label", .str t.label),
        ("status", .str t.status),
        ("team", .str t.team),
        ("created_at", .num t.created_at),
        ("sla_description", .str (sla_to_words t.sla_hours)),
        ("hours_remaining", .num hours_remaining),
        ("response_plan", .str t.response_plan),
        ("is_emergency", .bool t.is_emergency)]

/-- `ComplaintSystem.list_tenant_complaints`
(src/business_logic.py lines 303-329), over an explicit store. -/
def ComplaintSystem.list_tenant_complaints (store : ComplaintStore)
    (unit_number : String) : Json :=
  let tickets := ((store.map Prod.snd).filter
      (fun t => t.unit_number == unit_number)).map (fun t =>
    Json.obj [("ticket_id", .str t.ticket_id),
      ("label", .str t.label),
      ("status", .str t.status),
      ("created_at", .num t.created_at),
      ("sla_description", .str (sla_to_words t.sla_hours))])
  if tickets.isEmpty then
    Json.obj [("found", .bool false),
      ("message", .str ("There are no logged complaints for unit " ++
        unit_number ++ "."))]
  else
    Json.obj [("found", .bool true),
      ("unit_number", .str unit_number),
      ("count", .num tickets.length),
      ("complaints", .arr tickets)]

/-- `ComplaintSystem.get_complaint_categories`
(src/business_logic.py lines 331-347). -/
def ComplaintSystem.get_complaint_categories : Json :=
  let entry := fun (kv : String × String × Nat × String × Nat) =>
    Json.obj [("category", .str kv.1),
      ("label", .str kv.2.1),
      ("sla", .str (sla_to_words kv.2.2.1))]
  let emergency := (COMPLAINT_CONFIG.filter
    (fun kv => EMERGENCY_CATEGORIES.contains kv.1)).map entry
  let non_emergency := (COMPLAINT_CONFIG.filter
    (fun kv => !EMERGENCY_CATEGORIES.contains kv.1)).map entry
  Json.obj [("emergency_categories", .arr emergency),
    ("non_emergency_categories", .arr non_emergency)]

/-! ## Capability routing (src/functions.py)

Each capability is invoked as `await fn(**arguments)`: an absent required
keyword, an unexpected keyword or a non-string value where the signature
declares `str` makes the call raise, which `execute_function` catches.
A raised exception is `Except.error` with the exception text. -/

abbrev Args := List (String × Json)

abbrev Capability := Args → Except String Json

/-- Keyword binding for a required parameter annotated `str`. -/
def reqStr (args : Args) (k : String) : Except String String :=
  match args.lookup k with
  | some (.str s) => .ok s
  | some _ => .error ("argument " ++ k ++ " is not a string")
  | none => .error ("missing required argument: " ++ k)

/-- Keyword binding for the optional `contact_number: Optional[str] = None`. -/
def optStr (args : Args) (k : String) : Option String :=
  match args.lookup k with
  | some (.str s) => some s
  | _ => none

/-- `True` when `**arguments` holds a keyword the signature does not accept
(Python raises `TypeError`). -/
def hasUnexpectedKey (args : Args) (allowed : List String) : Bool :=
  args.any (fun kv => !(allowed.contains kv.1))

/-- `_agent_filler` (src/functions.py lines 143-144). -/
def agentFillerCap : Capability := fun args =>
  if hasUnexpectedKey args ["message"] then
    .error "unexpected keyword argument"
  else
    match args.lookup "message" with
    | some m => .ok (Json.obj [("success", .bool true), ("message", m)])
    | none => .error "missing required argument: message"

def verifyTenantCap : Capability := fun args =>
  if hasUnexpectedKey args ["unit_number"] then
    .error "unexpected keyword argument"
  else do
    let u ← reqStr args "unit_number"
    .ok (ComplaintSystem.verify_tenant u)

def getComplaintCategoriesCap : Capability := fun args =>
  if hasUnexpectedKey args [] then
    .error "unexpected keyword argument"
  else
    .ok ComplaintSystem.get_complaint_categories

/-- Ambient process state the capabilities read: the `COMPLAINTS` store, the
clock and the next uuid's first eight characters. -/
structure Env where
  store : ComplaintStore
  now : Nat
  uuid8 : String

def fileComplaintCap (env : Env) : Capability := fun args =>
  if hasUnexpectedKey args ["unit_number", "category", "description",
      "tenant_name", "contact_number"] then
    .error "unexpected keyword argument"
  else do
    let unit_number ← reqStr args "unit_number"
    let category ← reqStr args "category"
    let description ← reqStr args "description"
    let tenant_name ← reqStr args "tenant_name"
    .ok (ComplaintSystem.file_complaint env.uuid8 env.now unit_number
      category description tenant_name (optStr args "contact_number")).1

def checkComplaintStatusCap (env : Env) : Capability := fun args =>
  if hasUnexpectedKey args ["ticket_id"] then
    .error "unexpected keyword argument"
  else do
    let t ← reqStr args "ticket_id"
    .ok (ComplaintSystem.check_complaint_status env.store env.now t)

def listTenantComplaintsCap (env : Env) : Capability := fun args =>
  if hasUnexpectedKey args ["unit_number"] then
    .error "unexpected keyword argument"
  else do
    let u ← reqStr args "unit_number"
    .ok (ComplaintSystem.list_tenant_complaints env.store u)

/-- `FUNCTION_MAP` (src/functions.py lines 147-154). -/
def FUNCTION_MAP (env : Env) (name : String) : Option Capability :=
  if name = "agent_filler" then some agentFillerCap
  else if name = "verify_tenant" then some verifyTenantCap
  else if name = "get_complaint_categories" then some getComplaintCategoriesCap
  else if name = "file_complaint" then some (fileComplaintCap env)
  else if name = "check_complaint_status" then some (checkComplaintStatusCap env)
  else if name = "list_tenant_complaints" then some (listTenantComplaintsCap env)
  else none

/-- `execute_function` (src/functions.py lines 161-175): route by name,
catch any raised exception, return the result the caller will serialize with
`json.dumps`. The returned value is the parsed body of that JSON string. -/
def execute_function (fmap : String → Option Capability) (name : String)
    (args : Args) : Json :=
  match fmap name with
  | none =>
      Json.obj [("success", .bool false),
        ("error", .str ("Unknown function: " ++ name))]
  | some fn =>
      match fn args with
      | .ok r => r
      | .error e =>
          Json.obj [("success", .bool false), ("error", .str e)]

/-! ## Function-call dispatcher (src/f/main.py lines 152-171) -/

/-- A `FunctionCallRequest` control message: `client_side = none` models a
JSON body with no `client_side` field (`req.get("client_side", True)`). -/
structure FunctionCallRequest where
  name : String
  id : String
  arguments : Args
  client_side : Option Bool

/-- The `FunctionCallResponse` JSON sent back on the agent connection. -/
structure FunctionCallResponse where
  id : String
  name : String
  content : Json

/-- `_handle_function_call`: skip server-side requests (observe/log only,
no send, no local execution); otherwise execute locally and send back the
correlated response. `none` = nothing sent on the agent connection. -/
def handle_function_call (fmap : String → Option Capability)
    (req : FunctionCallRequest) : Option FunctionCallResponse :=
  if (req.client_side.getD true) = false then
    none
  else
    some { id := req.id, name := req.name,
           content := execute_function fmap req.name req.arguments }

/-! ## Agent ingress task `sts_receiver` (src/f/main.py lines 96-145)

Reads frames from the agent connection; binary frames are wrapped as Twilio
media events and sent, JSON control messages are dispatched by `type`. The
model maps the stream of received frames to the ordered stream of sends the
task performs. -/

/-- A well-formed JSON control message, classified by its `type` field. -/
inductive StsEvent where
  | conversationText (role content : String)
  | functionCallRequest (req : FunctionCallRequest)
  | userStartedSpeaking
  | info (mtype : String)
  | warning (mtype : String)
  | unknown

/-- One frame received on the agent connection. `malformedText` is a text
frame `json.loads` rejects: logged nothing, dropped, loop continues. -/
inductive AgentFrame where
  | binary (payload : List Byte)
  | malformedText
  | text (e : StsEvent)

/-- A send the ingress task performs, on the telephony connection or back on
the agent connection. -/
inductive OutboundSend where
  | twilioMedia (streamSid : String) (payload : List Byte)
  | twilioClear (streamSid : String)
  | dgResponse (resp : FunctionCallResponse)

/-- Handling of a single received frame (the body of the `async for`). -/
def stsReceiverStep (fmap : String → Option Capability) (sid : String) :
    AgentFrame → List OutboundSend
  | .binary p => [.twilioMedia sid p]
  | .malformedText => []
  | .text .userStartedSpeaking => [.twilioClear sid]
  | .text (.functionCallRequest req) =>
      match handle_function_call fmap req with
      | some r => [.dgResponse r]
      | none => []
  | .text _ => []

/-- `sts_receiver` over the whole received stream: all sends, in the order
they are performed. -/
def stsReceiver (fmap : String → Option Capability) (sid : String)
    (frames : List AgentFrame) : List OutboundSend :=
  (frames.map (stsReceiverStep fmap sid)).flatten

/-! ## Telephony ingest task `twilio_receiver` (src/f/main.py lines 54-80)

The `try` block wraps the whole read loop; `finally` always enqueues the
`None` sentinel. The model maps the residual buffer and the stream of
telephony messages to the ordered list of queue items the task enqueues. -/

/-- One message read from the telephony websocket. `malformed` is a message
on which `json.loads` or a field access raises (undecodable JSON or a missing
field): the exception escapes the `async for` into the outer `except`. -/
inductive TwilioMsg where
  | malformed
  | media (payload : List Byte)
  | start (sid : String)
  | stop
  | other

/-- `twilio_receiver`: every item enqueued on the audio queue, in order,
including the final sentinel enqueued by the `finally` block. -/
def twilioReceiverRun : List Byte → List TwilioMsg → List QueueItem
  | _, [] => [none]
  | _, .malformed :: _ => [none]
  | buf, .media p :: rest =>
      let d := drainFrames BYTES_PER_CHUNK (buf ++ p)
      d.1.map some ++ twilioReceiverRun d.2 rest
  | buf, .start _ :: rest => twilioReceiverRun buf rest
  | _, .stop :: _ => [none]
  | buf, .other :: rest => twilioReceiverRun buf rest

/-! ## Claim theorems on the tool-call bridge and dispatcher -/

/-- C4 (amended): for every client-side `FunctionCallRequest`, the dispatcher
sends exactly one `FunctionCallResponse` carrying the same correlation id and
function name; whenever the invoked capability raises, the fault is caught and
converted into the failed body `{success:false, error}` — it never propagates
out of the handler (the handler is a total function). The success-path content
is the capability's own returned object, which need not carry a `success`
field. -/
theorem C4_response_correlation_and_fault_isolation
    (fmap : String → Option Capability) (req : FunctionCallRequest)
    (h : req.client_side ≠ some false) :
    ∃ resp, handle_function_call fmap req = some resp
      ∧ resp.id = req.id ∧ resp.name = req.name
      ∧ (∀ fn e, fmap req.name = some fn → fn req.arguments = .error e →
          resp.content =
            Json.obj [("success", .bool false), ("error", .str e)]) := by
  have hcs : ¬ (req.client_side.getD true = false) := by
    cases hc : req.client_side with
    | none => simp
    | some b =>
        cases b with
        | false => exact absurd hc h
        | true => simp
  refine ⟨⟨req.id, req.name, execute_function fmap req.name req.arguments⟩,
    ?_, rfl, rfl, ?_⟩
  · unfold handle_function_call
    rw [if_neg hcs]
  · intro fn e hfn herr
    show execute_function fmap req.name req.arguments = _
    simp [execute_function, hfn, herr]

/-- Witness for C4 at a concrete faulting input: `verify_tenant` invoked
with no arguments raises on keyword binding; the dispatcher still answers
with the same id and the failed-result body. -/
theorem C4_response_correlation_and_fault_isolation_witness :
    ∃ resp, handle_function_call (FUNCTION_MAP ⟨[], 0, "a1b2c3d4"⟩)
        { name := "verify_tenant", id := "c9", arguments := [],
          client_side := some true } = some resp
      ∧ resp.id = "c9" ∧ resp.name = "verify_tenant"
      ∧ (∀ fn e, FUNCTION_MAP ⟨[], 0, "a1b2c3d4"⟩ "verify_tenant" = some fn →
          fn [] = .error e →
          resp.content =
            Json.obj [("success", .bool false), ("error", .str e)]) :=
  C4_response_correlation_and_fault_isolation (FUNCTION_MAP ⟨[], 0, "a1b2c3d4"⟩)
    { name := "verify_tenant", id := "c9", arguments := [],
      client_side := some true } (by simp)

/-- Counterexample to C4 as stated: on the success path the response content
is not a CapabilityResult-shaped object. For
`verify_tenant(unit_number="101")` (client-side, id "c1") the content sent is
`{verified, unit_number, tenant_name}` — it has no `success` field. -/
theorem C4_counterexample_no_success_field :
    handle_function_call (FUNCTION_MAP ⟨[], 0, "a1b2c3d4"⟩)
        { name := "verify_tenant", id := "c1",
          arguments := [("unit_number", Json.str "101")],
          client_side := some true } =
      some { id := "c1", name := "verify_tenant",
             content := Json.obj [("verified", Json.bool true),
               ("unit_number", Json.str "101"),
               ("tenant_name", Json.str "Priya Sharma")] }
    ∧ (Json.obj [("verified", Json.bool true),
        ("unit_number", Json.str "101"),
        ("tenant_name", Json.str "Priya Sharma")]).getField "success" =
      none :=
  ⟨rfl, rfl⟩

/-- C5: invoking `execute_function` with a name not registered in
`FUNCTION_MAP` returns `{success:false, error:"Unknown function: <name>"}` —
a descriptive error naming the unknown function — and never raises. -/
theorem C5_unknown_function_failed_result (env : Env) (name : String)
    (args : Args) (h : FUNCTION_MAP env name = none) :
    execute_function (FUNCTION_MAP env) name args =
      Json.obj [("success", .bool false),
        ("error", .str ("Unknown function: " ++ name))] := by
  unfold execute_function
  rw [h]

/-- Witness for C5 at the concrete unregistered name "reset_password". -/
theorem C5_unknown_function_failed_result_witness :
    FUNCTION_MAP ⟨[], 0, ""⟩ "reset_password" = none
    ∧ execute_function (FUNCTION_MAP ⟨[], 0, ""⟩) "reset_password" [] =
        Json.obj [("success", .bool false),
          ("error", .str "Unknown function: reset_password")] :=
  ⟨rfl, C5_unknown_function_failed_result ⟨[], 0, ""⟩ "reset_password" [] rfl⟩

/-- C6: a `FunctionCallRequest` with `client_side` false is only observed and
logged: no local execution, nothing sent back on the agent connection; a
response exists exactly when the flag (with its `True` default) is true. -/
theorem C6_server_side_not_executed (fmap : String → Option Capability)
    (req : FunctionCallRequest) :
    (req.client_side = some false → handle_function_call fmap req = none)
    ∧ ((handle_function_call fmap req).isSome ↔
        req.client_side.getD true = true) := by
  constructor
  · intro h
    unfold handle_function_call
    rw [h]
    rfl
  · unfold handle_function_call
    by_cases h : req.client_side.getD true = false
    · rw [if_pos h]
      simp [h]
    · rw [if_neg h]
      simp [eq_true_of_ne_false h]

/-- C10: a `FunctionCallRequest` whose JSON has no `client_side` field is
treated as client-side: the named function is executed locally through
`execute_function` and a `FunctionCallResponse` carrying the request's id is
sent back. -/
theorem C10_missing_client_side_defaults_true
    (fmap : String → Option Capability) (req : FunctionCallRequest)
    (h : req.client_side = none) :
    handle_function_call fmap req =
      some { id := req.id, name := req.name,
             content := execute_function fmap req.name req.arguments } := by
  unfold handle_function_call
  rw [h]
  rfl

/-- Witness for C10: a concrete request with no `client_side` field is
executed and answered with its own id. -/
theorem C10_missing_client_side_defaults_true_witness :
    handle_function_call (FUNCTION_MAP ⟨[], 0, ""⟩)
      { name := "get_complaint_categories", id := "q7", arguments := [],
        client_side := none } =
      some { id := "q7", name := "get_complaint_categories",
             content := execute_function (FUNCTION_MAP ⟨[], 0, ""⟩)
               "get_complaint_categories" [] } :=
  C10_missing_client_side_defaults_true (FUNCTION_MAP ⟨[], 0, ""⟩)
    { name := "get_complaint_categories", id := "q7", arguments := [],
      client_side := none } rfl

/-- C9: filing `file_complaint(unit_number="202", category="gas_leak",
description="smell of gas", tenant_name="James O'Brien")` returns
`success:true`, a ticket id prefixed "MAD-", `is_emergency:true`,
`sla_hours = 1`, and the SLA description "within 1 hour" — for any uuid the
process draws and any current time. -/
theorem C9_file_complaint_gas_leak (uuid8 : String) (now : Nat) :
    (ComplaintSystem.file_complaint uuid8 now "202" "gas_leak" "smell of gas"
        "James O'Brien" none).1.getField "success" = some (.bool true)
    ∧ (ComplaintSystem.file_complaint uuid8 now "202" "gas_leak"
        "smell of gas" "James O'Brien" none).1.getField "ticket_id" =
      some (.str ("MAD-" ++ pyUpper uuid8))
    ∧ (ComplaintSystem.file_complaint uuid8 now "202" "gas_leak"
        "smell of gas" "James O'Brien" none).1.getField "is_emergency" =
      some (.bool true)
    ∧ (ComplaintSystem.file_complaint uuid8 now "202" "gas_leak"
        "smell of gas" "James O'Brien" none).1.getField "sla_hours" =
      some (.num 1)
    ∧ (ComplaintSystem.file_complaint uuid8 now "202" "gas_leak"
        "smell of gas" "James O'Brien" none).1.getField "sla_description" =
      some (.str "within 1 hour") :=
  ⟨rfl, rfl, rfl, rfl, rfl⟩

/-- C7: a `UserStartedSpeaking` control message makes the agent ingress task
send the interrupt (`clear`) event to telephony synchronously, during the
handling of that message: the clear appears in the send stream after
everything produced by earlier frames and before anything produced by later
frames — in particular before any subsequently received audio frame is
forwarded. -/
theorem C7_barge_in_clear_before_later_audio
    (fmap : String → Option Capability) (sid : String)
    (pre post : List AgentFrame) :
    stsReceiver fmap sid
        (pre ++ AgentFrame.text StsEvent.userStartedSpeaking :: post) =
      stsReceiver fmap sid pre ++
        OutboundSend.twilioClear sid :: stsReceiver fmap sid post := by
  simp [stsReceiver, stsReceiverStep]

theorem drainFrames_nil (N : Nat) : drainFrames N [] = ([], []) := by
  rw [drainFrames, dif_neg]
  rintro ⟨h1, h2⟩
  simp at h2
  omega

theorem drainFrames_exact (N : Nat) (buf : List Byte) (hN : 0 < N)
    (h : buf.length = N) : drainFrames N buf = ([buf], []) := by
  rw [drainFrames, dif_pos ⟨hN, h.symm.le⟩]
  simp only [List.take_of_length_le h.le, List.drop_eq_nil_of_le h.le,
    drainFrames_nil]

/-- C8 (amended): a malformed (undecodable-JSON or missing-field) telephony
message is not skipped: the raised error escapes the read loop, is logged by
the task's outer handler, and the task terminates, enqueuing only the
end-of-stream sentinel — no subsequent telephony message is processed. -/
theorem C8_malformed_message_terminates_task (buf : List Byte)
    (rest : List TwilioMsg) :
    twilioReceiverRun buf (TwilioMsg.malformed :: rest) = [none] := rfl

/-- Counterexample to C8 as stated: a valid 160-byte media message following
a malformed message yields no frame on the queue (the task has stopped
reading), although on its own it yields exactly one frame before the
sentinel. -/
theorem C8_counterexample_not_skipped :
    twilioReceiverRun []
        [TwilioMsg.malformed, TwilioMsg.media (List.replicate 160 0)] = [none]
    ∧ twilioReceiverRun [] [TwilioMsg.media (List.replicate 160 0)] =
        [some (List.replicate 160 0), none] := by
  constructor
  · rfl
  · simp only [twilioReceiverRun, List.nil_append]
    rw [show BYTES_PER_CHUNK = 160 from rfl,
      drainFrames_exact 160 (List.replicate 160 0) (by norm_num) (by simp)]
    rfl

end MadHotline
